import Mathlib

/-!
Shallow embedding of the FWP_MKT order configuration and submission pipeline:
the pricing, validation, coupon and draft logic of
`src/components/ShippingForm.tsx` and the sheet-sync logic of
`src/services/googleSheetService.ts`.

Machine numbers are modelled as `Int` (integer currency units) and `Rat`
(sizes, which may carry a decimal fraction).  JavaScript string-to-number
conversions (`Number`, `parseFloat`) are modelled as `Option Rat`, where
`none` stands for `NaN`; the models cover decimal literals (optional sign,
digits, at most one dot), which is the input space reachable here because
`handleWristSizeChange` strips everything except digits and dots.  Exotic
forms (hex, exponents, `Infinity`) are treated as `NaN`.
-/

namespace FWP

/-- Model of JavaScript `str.trim()`: strip whitespace from both ends. -/
def jsTrim (s : String) : String :=
  String.mk (((s.toList.dropWhile Char.isWhitespace).reverse.dropWhile
    Char.isWhitespace).reverse)

/-- Model of JavaScript `str.toUpperCase()` on the ASCII range. -/
def jsToUpper (s : String) : String :=
  String.mk (s.toList.map Char.toUpper)

/-- Step function for `jsSplit`: the fuel starts at the length of the
character list and bounds the recursion; each step consumes at least one
character, so the fuel never runs out on the guarded calls. -/
def jsSplitGo (sep : List Char) : Nat → List Char → List Char → List (List Char)
  | _, [], acc => [acc.reverse]
  | 0, cs, acc => [acc.reverse ++ cs]
  | fuel + 1, c :: cs, acc =>
      if sep.isPrefixOf (c :: cs) then
        acc.reverse :: jsSplitGo sep fuel ((c :: cs).drop sep.length) []
      else
        jsSplitGo sep fuel cs (c :: acc)

/-- Model of JavaScript `str.split(sep)` for a non-empty separator (the
source only splits on the literal `"base64,"` and, through `includes`,
searches for `"CORS"`). -/
def jsSplit (s sep : String) : List String :=
  if sep = "" then [s]
  else (jsSplitGo sep.toList s.toList.length s.toList []).map String.mk

/-- Digit characters of a list, interpreted as a base-10 natural number
(`'0'` has code 48). -/
def digitsToNat (ds : List Char) : Nat :=
  ds.foldl (fun a c => a * 10 + (c.toNat - 48)) 0

/-- The rational value of a decimal literal with integer digits `intPart`
and fraction digits `fracPart`. -/
def decimalValue (intPart fracPart : List Char) : Rat :=
  mkRat (digitsToNat intPart * 10 ^ fracPart.length + digitsToNat fracPart)
    (10 ^ fracPart.length)

/-- Parse an unsigned decimal prefix `digits [ '.' digits ]` of a character
list, JavaScript `parseFloat` style: the longest valid prefix counts and
trailing junk is ignored; `none` when no digit is found. -/
def parseUnsignedPrefix (cs : List Char) : Option Rat :=
  let intPart := cs.takeWhile Char.isDigit
  let rest := cs.dropWhile Char.isDigit
  match rest with
  | '.' :: rest2 =>
      let fracPart := rest2.takeWhile Char.isDigit
      if intPart.isEmpty && fracPart.isEmpty then none
      else some (decimalValue intPart fracPart)
  | _ => if intPart.isEmpty then none else some (decimalValue intPart [])

/-- Model of JavaScript `parseFloat`: skip leading whitespace, optional
sign, then the longest decimal prefix; `none` models `NaN`. -/
def jsParseFloat (s : String) : Option Rat :=
  match s.toList.dropWhile Char.isWhitespace with
  | '-' :: rest => (parseUnsignedPrefix rest).map Rat.neg
  | '+' :: rest => parseUnsignedPrefix rest
  | cs => parseUnsignedPrefix cs

/-- Parse an entire character list as an unsigned decimal literal
`digits [ '.' digits ]`; `none` when anything is left over or no digit
appears. -/
def parseUnsignedFull (cs : List Char) : Option Rat :=
  let intPart := cs.takeWhile Char.isDigit
  let rest := cs.dropWhile Char.isDigit
  match rest with
  | [] => if intPart.isEmpty then none else some (decimalValue intPart [])
  | '.' :: rest2 =>
      let fracPart := rest2.takeWhile Char.isDigit
      let rest3 := rest2.dropWhile Char.isDigit
      if rest3.isEmpty && !(intPart.isEmpty && fracPart.isEmpty)
      then some (decimalValue intPart fracPart)
      else none
  | _ => none

/-- Model of JavaScript `Number(...)` on strings: whitespace is trimmed,
the empty string converts to `0`, otherwise the whole string must be a
signed decimal literal; `none` models `NaN`. -/
def jsNumber (s : String) : Option Rat :=
  let t := jsTrim s
  if t = "" then some 0
  else
    match t.toList with
    | '-' :: rest => (parseUnsignedFull rest).map Rat.neg
    | '+' :: rest => parseUnsignedFull rest
    | cs => parseUnsignedFull cs

/-- Model of JavaScript `str.replace(/\D/g, '')`: keep only digits. -/
def digitsOnly (s : String) : String :=
  String.mk (s.toList.filter Char.isDigit)

/-- Model of JavaScript `a.includes(b)` for a non-empty pattern `b`:
the split on `b` yields at least two pieces iff the pattern occurs. -/
def containsSubstr (s pat : String) : Bool :=
  2 ≤ (jsSplit s pat).length

/-- `PricingStrategy.type` in `src/types`: the two policy variants. -/
inductive StrategyType where
  | standard
  | custom
  deriving DecidableEq, Repr

/-- `PricingStrategy`: basePrice, shippingCost, surcharge in integer
currency units, sizeThreshold as a (possibly fractional) measurement. -/
structure PricingStrategy where
  type : StrategyType
  basePrice : Int
  shippingCost : Int
  sizeThreshold : Rat
  surcharge : Int
  deriving DecidableEq, Repr

/-- An applied coupon, as stored in the `appliedCoupon` state:
`{code, amount}`. -/
structure Coupon where
  code : String
  amount : Int
  deriving DecidableEq, Repr

/-- `COUPON_CONFIG` from `src/config/coupons`. -/
structure CouponConfig where
  code : String
  discountAmount : Int
  eventName : String
  isEnabled : Bool
  deriving DecidableEq, Repr

/-- The mutable state of the shipping form that the pricing, coupon and
submission logic reads: the React `useState` cells of `ShippingForm`. -/
structure FormState where
  realName : String
  phone : String
  storeCode : String
  storeName : String
  socialId : String
  wristSize : String
  isCustomSize : Bool
  addPurificationBag : Bool
  preferredColors : List String
  couponInput : String
  appliedCoupon : Option Coupon
  couponError : String
  agreed : Bool
  deriving DecidableEq, Repr

/-- `const PURIFICATION_BAG_COST = 200`. -/
def PURIFICATION_BAG_COST : Int := 200

/-- `isSurchargeApplicable` (ShippingForm.tsx lines 84-86):
`isStandard ? isCustomSize : (wristSize !== '' && !isNaN(Number(wristSize))
&& Number(wristSize) >= pricingStrategy.sizeThreshold)`. -/
def isSurchargeApplicable (p : PricingStrategy) (s : FormState) : Bool :=
  if p.type = StrategyType.standard then
    s.isCustomSize
  else
    decide (s.wristSize ≠ "") &&
    (match jsNumber s.wristSize with
     | none => false
     | some q => decide (p.sizeThreshold ≤ q))

/-- `baseTotal` (lines 88-92). -/
def baseTotal (p : PricingStrategy) (s : FormState) : Int :=
  p.basePrice + p.shippingCost +
  (if isSurchargeApplicable p s then p.surcharge else 0) +
  (if s.addPurificationBag then PURIFICATION_BAG_COST else 0)

/-- `discount` (line 95). -/
def discount (s : FormState) : Int :=
  match s.appliedCoupon with
  | some c => c.amount
  | none => 0

/-- `totalPrice = Math.max(0, baseTotal - discount)` (line 96). -/
def totalPrice (p : PricingStrategy) (s : FormState) : Int :=
  max 0 (baseTotal p s - discount s)

/-- The seven validated form fields, in the order `validateAndSubmit`
checks them. -/
inductive Field where
  | realName
  | phone
  | storeCode
  | storeName
  | socialId
  | wristSize
  | agreement
  deriving DecidableEq, Repr

/-- The canonical field order used by the validation pass of
`validateAndSubmit` (lines 273-291). -/
def canonicalFields : List Field :=
  [Field.realName, Field.phone, Field.storeCode, Field.storeName,
   Field.socialId, Field.wristSize, Field.agreement]

/-- `/^09\d{8}$/.test(s)`: exactly ten digits starting with `09`. -/
def phoneRegexOk (s : String) : Bool :=
  s.toList.length = 10 && ['0', '9'].isPrefixOf s.toList && s.toList.all Char.isDigit

/-- `/^\d{6}$/.test(s)`: exactly six digits. -/
def storeCodeOk (s : String) : Bool :=
  s.toList.length = 6 && s.toList.all Char.isDigit

/-- The wrist-size rejection test of `validateAndSubmit` (lines 286-289):
`!wristSize || isNaN(parseFloat(wristSize)) || sizeNum <= 0 || sizeNum > 30`. -/
def wristSizeInvalid (ws : String) : Bool :=
  ws = "" ||
  (match jsParseFloat ws with
   | none => true
   | some q => decide (q ≤ 0) || decide (30 < q))

/-- `${clean.slice(0,4)}-${clean.slice(4,7)}-${clean.slice(7)}` (line 278). -/
def formatDashedPhone (clean : String) : String :=
  clean.take 4 ++ "-" ++ ((clean.drop 4).take 3) ++ "-" ++ clean.drop 7

/-- The error map built by `validateAndSubmit` (lines 271-291), as the list
of `(field, message)` entries in insertion order; JavaScript objects
enumerate non-numeric string keys in insertion order, so this list also
fixes what `Object.keys(newErrors)[0]` sees. -/
def validationErrors (s : FormState) : List (Field × String) :=
  (if jsTrim s.realName = "" then [(Field.realName, "請填寫真實姓名，以利取貨核對")] else []) ++
  (if phoneRegexOk (digitsOnly s.phone) then [] else [(Field.phone, "請輸入有效的 10 碼手機號碼 (09開頭)")]) ++
  (if storeCodeOk s.storeCode then [] else [(Field.storeCode, "7-11 店號需為 6 碼數字")]) ++
  (if jsTrim s.storeName = "" then [(Field.storeName, "請輸入店名")] else []) ++
  (if jsTrim s.socialId = "" then [(Field.socialId, "請填寫 IG 或 FB 帳號")] else []) ++
  (if wristSizeInvalid s.wristSize then [(Field.wristSize, "請輸入有效的手圍 (cm)")] else []) ++
  (if s.agreed then [] else [(Field.agreement, "請先閱讀並勾選同意購買須知")])

/-- Whether one given field fails its validation rule, read off the same
tests as `validationErrors`. -/
def failsField (f : Field) (s : FormState) : Bool :=
  match f with
  | Field.realName => jsTrim s.realName = ""
  | Field.phone => !phoneRegexOk (digitsOnly s.phone)
  | Field.storeCode => !storeCodeOk s.storeCode
  | Field.storeName => jsTrim s.storeName = ""
  | Field.socialId => jsTrim s.socialId = ""
  | Field.wristSize => wristSizeInvalid s.wristSize
  | Field.agreement => !s.agreed

/-- The `ShippingDetails` record handed to `onSubmit` (lines 311-323). -/
structure ShippingDetails where
  realName : String
  phone : String
  storeCode : String
  storeName : String
  socialId : String
  wristSize : String
  addPurificationBag : Bool
  preferredColors : List String
  couponCode : Option String
  discountAmount : Option Int
  totalPrice : Int
  deriving DecidableEq, Repr

/-- Observable outcome of one `validateAndSubmit` call: the recorded error
map, the field shaken and scrolled to (if any), whether the persisted
draft entry was removed, and the record passed to `onSubmit` (if any). -/
structure SubmitOutcome where
  errors : List (Field × String)
  shaken : Option Field
  draftCleared : Bool
  submitted : Option ShippingDetails
  deriving DecidableEq, Repr

/-- `validateAndSubmit` (lines 269-324).  On any validation error (the
error list is non-empty) it shakes and scrolls the first inserted key of
the error object, keeps the draft, and never calls `onSubmit`; otherwise it
removes the draft entry and calls `onSubmit` with the finalized record,
the phone normalized from its digit-only content. -/
def validateAndSubmit (p : PricingStrategy) (s : FormState) : SubmitOutcome :=
  let errs := validationErrors s
  let cleanPhone := digitsOnly s.phone
  let finalPhone := if phoneRegexOk cleanPhone then formatDashedPhone cleanPhone else s.phone
  if errs.isEmpty then
    { errors := []
      shaken := none
      draftCleared := true
      submitted := some
        { realName := jsTrim s.realName
          phone := finalPhone
          storeCode := s.storeCode
          storeName := jsTrim s.storeName
          socialId := jsTrim s.socialId
          wristSize := s.wristSize
          addPurificationBag := s.addPurificationBag
          preferredColors := s.preferredColors
          couponCode := s.appliedCoupon.map Coupon.code
          discountAmount := s.appliedCoupon.map Coupon.amount
          totalPrice := totalPrice p s } }
  else
    { errors := errs
      shaken := errs.head?.map Prod.fst
      draftCleared := false
      submitted := none }

/-- `handleApplyCoupon` (lines 248-267) as a state transition, with
`COUPON_CONFIG` passed explicitly. -/
def handleApplyCoupon (cfg : CouponConfig) (s : FormState) : FormState :=
  let s0 := { s with couponError := "" }
  if jsTrim s0.couponInput = "" then s0
  else if !cfg.isEnabled then { s0 with couponError := "目前無進行中的優惠活動" }
  else if jsToUpper (jsTrim s0.couponInput) = jsToUpper cfg.code then
    { s0 with appliedCoupon := some { code := cfg.code, amount := cfg.discountAmount }
              couponError := "" }
  else
    { s0 with couponError := "優惠碼無效或已過期", appliedCoupon := none }

/-- The draft object written to `localStorage` by the auto-save effect
(lines 108-112): exactly these eight fields. -/
structure Draft where
  realName : String
  phone : String
  storeCode : String
  storeName : String
  socialId : String
  wristSize : String
  addPurificationBag : Bool
  preferredColors : List String
  deriving DecidableEq, Repr

/-- The draft saved on every field mutation (lines 109-112). -/
def saveDraft (s : FormState) : Draft :=
  { realName := s.realName
    phone := s.phone
    storeCode := s.storeCode
    storeName := s.storeName
    socialId := s.socialId
    wristSize := s.wristSize
    addPurificationBag := s.addPurificationBag
    preferredColors := s.preferredColors }

/-- The initial form state restored from a saved draft (the `useState`
initializers, lines 32-59): the eight draft fields come back from storage
(with the wrist-size and custom-size defaulting of lines 39-48), while the
coupon input, the applied coupon, the coupon error and the agreement flag
always start from their defaults. -/
def initFormState (d : Draft) (p : PricingStrategy) : FormState :=
  { realName := d.realName
    phone := d.phone
    storeCode := d.storeCode
    storeName := d.storeName
    socialId := d.socialId
    wristSize :=
      if d.wristSize ≠ "" then d.wristSize
      else if p.type = StrategyType.standard then "14" else ""
    isCustomSize :=
      p.type = StrategyType.standard && d.wristSize ≠ "" && d.wristSize ≠ "14"
    addPurificationBag := d.addPurificationBag
    preferredColors := d.preferredColors
    couponInput := ""
    appliedCoupon := none
    couponError := ""
    agreed := false }

/-- A thrown JavaScript error, as far as `sendRequest` inspects it:
its `name` and `message`. -/
structure JsError where
  name : String
  message : String
  deriving DecidableEq, Repr

/-- JavaScript `a || b` on strings: `b` when `a` is falsy (empty). -/
def jsOr (a b : String) : String :=
  if a = "" then b else a

/-- `sanitize` (googleSheetService.ts line 18) on optional strings:
`undefined`/`null` become the empty string. -/
def sanitize (o : Option String) : String :=
  o.getD ""

/-- `record.analysis?.bazi` component. -/
structure Bazi where
  year : String
  month : String
  day : String
  time : String
  deriving DecidableEq, Repr

/-- `record.analysis?.fiveElements` component. -/
structure FiveElements where
  gold : Int
  wood : Int
  water : Int
  fire : Int
  earth : Int
  deriving DecidableEq, Repr

/-- The parts of `record.analysis` that `syncToGoogleSheet` reads. -/
structure Analysis where
  bazi : Option Bazi
  fiveElements : Option FiveElements
  zodiacSign : Option String
  element : Option String
  luckyElement : Option String
  suggestedCrystals : Option (List String)
  reasoning : Option String
  visualDescription : Option String
  colorPalette : Option (List String)
  deriving DecidableEq, Repr

/-- One entry of `record.wishes`. -/
structure Wish where
  type : String
  description : String
  deriving DecidableEq, Repr

/-- The parts of a `CustomerRecord` that `syncToGoogleSheet` reads.
`createdAt` carries the timestamp as a string; its locale formatting
(`new Date(...).toLocaleString`) is environment output and is modelled as
the identity on that string. -/
structure CustomerRecord where
  id : String
  name : String
  gender : Option String
  birthDate : Option String
  birthTime : Option String
  wish : Option String
  wishes : Option (List Wish)
  isTimeUnsure : Bool
  isStandardProduct : Bool
  analysis : Option Analysis
  generatedImageUrl : Option String
  createdAt : String
  shippingDetails : Option ShippingDetails
  deriving DecidableEq, Repr

/-- The flattened payload posted to the sheet script (lines 90-120). -/
structure SheetPayload where
  id : String
  name : String
  gender : String
  birthDate : String
  birthTime : String
  wish : String
  zodiacSign : String
  element : String
  luckyElement : String
  bazi : String
  fiveElements : String
  suggestedCrystals : String
  reasoning : String
  visualDescription : String
  colorPalette : String
  imageBase64 : String
  createdAt : String
  realName : String
  phone : String
  storeCode : String
  storeName : String
  socialId : String
  wristSize : String
  addPurificationBag : String
  preferredColors : String
  totalPrice : Int
  couponCode : String
  discountAmount : Int
  deriving DecidableEq, Repr

/-- The fallback `details` object used when `record.shippingDetails` is
absent (lines 38-42). -/
def defaultDetails : ShippingDetails :=
  { realName := ""
    phone := ""
    storeCode := ""
    storeName := ""
    socialId := ""
    wristSize := ""
    addPurificationBag := false
    preferredColors := []
    couponCode := some ""
    discountAmount := some 0
    totalPrice := 0 }

/-- The `cleanBase64` computation (lines 44-70).  The outcome of the
awaited `compressBase64Image(url, 0.6)` call is passed in as
`compression` (`Except.error` models a thrown compression failure, which
the source catches and falls back from). -/
def computeCleanBase64 (generatedImageUrl : Option String)
    (compression : Except JsError String) : String :=
  match generatedImageUrl with
  | none => ""
  | some url =>
    if url = "" then ""
    else if "http".toList.isPrefixOf url.toList then ""
    else
      match compression with
      | Except.ok compressedDataUrl =>
          if containsSubstr compressedDataUrl "base64," then
            (jsSplit compressedDataUrl "base64,").getD 1 ""
          else ""
      | Except.error _ =>
          if containsSubstr url "base64," then
            (jsSplit url "base64,").getD 1 ""
          else ""

/-- The payload construction of `syncToGoogleSheet` (lines 18-120). -/
def buildPayload (record : CustomerRecord)
    (compression : Except JsError String) : SheetPayload :=
  let isStandard := record.isStandardProduct
  let baziStr :=
    match record.analysis.bind Analysis.bazi with
    | some b => b.year ++ "/" ++ b.month ++ "/" ++ b.day ++ "/" ++ b.time
    | none => if isStandard then "N/A (標準品)" else ""
  let elementsStr :=
    match record.analysis.bind Analysis.fiveElements with
    | some fe =>
        "金:" ++ toString fe.gold ++ " 木:" ++ toString fe.wood ++
        " 水:" ++ toString fe.water ++ " 火:" ++ toString fe.fire ++
        " 土:" ++ toString fe.earth
    | none => if isStandard then "N/A" else ""
  let wishStr :=
    match record.wishes with
    | some ws =>
        String.intercalate "\n" (ws.map (fun w => "【" ++ w.type ++ "】" ++ w.description))
    | none => if isStandard then "標準商品訂單" else record.wish.getD ""
  let details := record.shippingDetails.getD defaultDetails
  let cleanBase64 := computeCleanBase64 record.generatedImageUrl compression
  let colorsStr :=
    if isStandard then "N/A"
    else if details.preferredColors ≠ [] then
      String.intercalate ", " details.preferredColors
    else ""
  let finalBirthTime :=
    if isStandard then "N/A"
    else if record.isTimeUnsure then "吉時/未知" else sanitize record.birthTime
  { id := record.id
    name := record.name
    gender := jsOr (sanitize record.gender) "N/A"
    birthDate := jsOr (sanitize record.birthDate) "N/A"
    birthTime := finalBirthTime
    wish := wishStr
    zodiacSign := jsOr (sanitize (record.analysis.bind Analysis.zodiacSign)) "N/A"
    element := jsOr (sanitize (record.analysis.bind Analysis.element)) "N/A"
    luckyElement := jsOr (sanitize (record.analysis.bind Analysis.luckyElement)) "N/A"
    bazi := baziStr
    fiveElements := elementsStr
    suggestedCrystals :=
      jsOr (sanitize ((record.analysis.bind Analysis.suggestedCrystals).map
        (String.intercalate ", "))) record.name
    reasoning := jsOr (sanitize (record.analysis.bind Analysis.reasoning)) "標準商品購買"
    visualDescription :=
      jsOr (sanitize (record.analysis.bind Analysis.visualDescription)) "標準品"
    colorPalette :=
      jsOr (sanitize ((record.analysis.bind Analysis.colorPalette).map
        (String.intercalate ", "))) "N/A"
    imageBase64 := cleanBase64
    createdAt := record.createdAt
    realName := details.realName
    phone := details.phone
    storeCode := details.storeCode
    storeName := details.storeName
    socialId := details.socialId
    wristSize := if details.wristSize = "" then "" else details.wristSize
    addPurificationBag := if details.addPurificationBag then "是" else "否"
    preferredColors := colorsStr
    totalPrice := if details.totalPrice ≠ 0 then details.totalPrice else 0
    couponCode := sanitize details.couponCode
    discountAmount :=
      match details.discountAmount with
      | some n => if n ≠ 0 then n else 0
      | none => 0 }

/-- The result object `sendRequest` resolves with. -/
structure SendResult where
  status : String
  message : String
  deriving DecidableEq, Repr

/-- The cross-origin classification of a thrown error (line 165):
`error.name === 'TypeError' && error.message.includes('CORS')`. -/
def isCorsError (e : JsError) : Bool :=
  e.name = "TypeError" && containsSubstr e.message "CORS"

/-- The result `sendRequest` resolves with when the transmission does not
throw (lines 156-159). -/
def sentResult : SendResult :=
  { status := "sent", message := "資料已發送（無法驗證，請檢查 Google Sheet）" }

/-- The result `sendRequest` resolves with when the throw is classified
as a cross-origin rejection (lines 167-170). -/
def corsBlockedResult : SendResult :=
  { status := "cors_blocked", message := "CORS 阻擋，但資料可能已寫入 Google Sheet" }

/-- `sendRequest` (lines 128-175).  The outcome of the awaited `fetch` is
passed in as `transmit`; a throw identified as a cross-origin rejection is
swallowed and reported as `cors_blocked`, any other throw is re-thrown. -/
def sendRequest (transmit : Except JsError Unit) : Except JsError SendResult :=
  match transmit with
  | Except.ok _ => Except.ok sentResult
  | Except.error e =>
      if isCorsError e then Except.ok corsBlockedResult
      else Except.error e

/-- How a `syncToGoogleSheet` call ended. -/
inductive SyncOutcome where
  | skipped
  | synced (r : SendResult)
  | retried (r : SendResult)
  | manualCheckNeeded
  deriving DecidableEq, Repr

/-- The observable trace of one `syncToGoogleSheet` call: every payload
actually handed to a transmission attempt, in order, and how the call
ended. -/
structure SyncLog where
  attempts : List SheetPayload
  outcome : SyncOutcome
  deriving DecidableEq, Repr

/-- `syncToGoogleSheet` (lines 13-192).  The outcomes of the at most two
`fetch` transmissions are passed in as `t1` and `t2`; the `Except` result
type records whether an exception escapes to the caller (the source never
lets one escape: the outer catch retries once without the image and the
inner catch of the retry only logs). -/
def syncToGoogleSheet (record : CustomerRecord) (scriptUrl : String)
    (compression : Except JsError String) (t1 t2 : Except JsError Unit) :
    Except JsError SyncLog :=
  if scriptUrl = "" then Except.ok { attempts := [], outcome := SyncOutcome.skipped }
  else
    let payload := buildPayload record compression
    match sendRequest t1 with
    | Except.ok r => Except.ok { attempts := [payload], outcome := SyncOutcome.synced r }
    | Except.error _ =>
        let textOnlyPayload := { payload with imageBase64 := "" }
        match sendRequest t2 with
        | Except.ok r =>
            Except.ok { attempts := [payload, textOnlyPayload], outcome := SyncOutcome.retried r }
        | Except.error _ =>
            Except.ok { attempts := [payload, textOnlyPayload], outcome := SyncOutcome.manualCheckNeeded }

/-! Concrete fixtures used by witnesses and counterexamples. -/

/-- A form with every field still empty and the agreement unchecked. -/
def sEmpty : FormState :=
  { realName := "", phone := "", storeCode := "", storeName := "", socialId := ""
    wristSize := "", isCustomSize := false, addPurificationBag := false
    preferredColors := [], couponInput := "", appliedCoupon := none
    couponError := "", agreed := false }

/-- A form state in which every validation rule passes. -/
def sValid : FormState :=
  { sEmpty with realName := "王小美", phone := "0912-345-678", storeCode := "123456"
                storeName := "鑫泰門市", socialId := "@crystal", wristSize := "15"
                agreed := true }

/-- The standard pricing policy built by `ProductCheckout`. -/
def pStdExample : PricingStrategy :=
  { type := StrategyType.standard, basePrice := 2480, shippingCost := 0
    sizeThreshold := 14, surcharge := 200 }

/-- A custom-variant pricing policy. -/
def pCusExample : PricingStrategy :=
  { type := StrategyType.custom, basePrice := 1880, shippingCost := 60
    sizeThreshold := 14, surcharge := 200 }

/-- An enabled coupon configuration. -/
def cfgOn : CouponConfig :=
  { code := "SAVE10", discountAmount := 100, eventName := "週年慶優惠", isEnabled := true }

/-- A disabled coupon configuration. -/
def cfgOff : CouponConfig :=
  { cfgOn with isEnabled := false }

/-- A validated shipping record for the sync fixtures. -/
def exDetails : ShippingDetails :=
  { realName := "王小美", phone := "0912-345-678", storeCode := "123456"
    storeName := "鑫泰門市", socialId := "@crystal", wristSize := "15"
    addPurificationBag := false, preferredColors := []
    couponCode := none, discountAmount := none, totalPrice := 2480 }

/-- A customer record that carries raw encoded image data. -/
def exRecord : CustomerRecord :=
  { id := "R1", name := "花生手鍊", gender := none, birthDate := none, birthTime := none
    wish := none, wishes := none, isTimeUnsure := false, isStandardProduct := true
    analysis := none, generatedImageUrl := some "data:image/png;base64,QUJD"
    createdAt := "2026-01-01", shippingDetails := some exDetails }

/-- A compression outcome whose data URL still carries image data. -/
def exCompression : Except JsError String :=
  Except.ok "data:image/jpeg;base64,QUJD"

/-- A thrown error that `sendRequest` classifies as a cross-origin rejection. -/
def corsErr : JsError :=
  { name := "TypeError", message := "Failed to fetch: CORS request blocked" }

/-- A thrown error that is not classified as cross-origin. -/
def plainErr : JsError :=
  { name := "AbortError", message := "The operation timed out" }

/-! Helper lemmas shared by several claims. -/

/-- The head of the error map built by `validateAndSubmit` is the first
field of the canonical order that fails, because the entries are inserted
in exactly that order. -/
theorem validationErrors_head_eq_find (s : FormState) :
    (validationErrors s).head?.map Prod.fst =
      canonicalFields.find? (fun f => failsField f s) := by
  by_cases h1 : jsTrim s.realName = "" <;>
    by_cases h2 : phoneRegexOk (digitsOnly s.phone) <;>
      by_cases h3 : storeCodeOk s.storeCode <;>
        by_cases h4 : jsTrim s.storeName = "" <;>
          by_cases h5 : jsTrim s.socialId = "" <;>
            by_cases h6 : wristSizeInvalid s.wristSize <;>
              by_cases h7 : s.agreed <;>
                simp [validationErrors, canonicalFields, failsField, List.find?,
                  h1, h2, h3, h4, h5, h6, h7]

/-- The error map of `validateAndSubmit` is empty exactly when every one
of the seven validation rules passes. -/
theorem validationErrors_eq_nil_iff (s : FormState) :
    validationErrors s = [] ↔
      (jsTrim s.realName ≠ "" ∧ phoneRegexOk (digitsOnly s.phone) = true ∧
       storeCodeOk s.storeCode = true ∧ jsTrim s.storeName ≠ "" ∧
       jsTrim s.socialId ≠ "" ∧ wristSizeInvalid s.wristSize = false ∧
       s.agreed = true) := by
  by_cases h1 : jsTrim s.realName = "" <;>
    by_cases h2 : phoneRegexOk (digitsOnly s.phone) <;>
      by_cases h3 : storeCodeOk s.storeCode <;>
        by_cases h4 : jsTrim s.storeName = "" <;>
          by_cases h5 : jsTrim s.socialId = "" <;>
            by_cases h6 : wristSizeInvalid s.wristSize <;>
              by_cases h7 : s.agreed <;>
                simp [validationErrors, h1, h2, h3, h4, h5, h6, h7]

/-! The claims. -/

/-- C1: for every pricing policy, selection state and optional applied
coupon, the displayed/submitted total equals
`max(0, basePrice + shippingCost + (surcharge if applicable) +
(200 if purification bag) - (coupon discount if applied))`, so the
discount can never make the total negative. -/
theorem total_price_invariant (p : PricingStrategy) (s : FormState) :
    totalPrice p s =
      max 0 (p.basePrice + p.shippingCost +
        (if isSurchargeApplicable p s then p.surcharge else 0) +
        (if s.addPurificationBag then 200 else 0) -
        (match s.appliedCoupon with | some c => c.amount | none => 0)) ∧
    0 ≤ totalPrice p s :=
  ⟨rfl, le_max_left 0 _⟩

/-- C2: surcharge applicability is decided by the policy variant alone:
for a standard policy it equals the custom-size toggle whatever the
wrist-size text holds; for a custom policy it holds iff the wrist-size
text is non-empty and converts to a number at least the threshold, so an
empty or non-numeric wrist size never applies the surcharge. -/
theorem surcharge_applicability (p : PricingStrategy) (s : FormState) :
    (p.type = StrategyType.standard → isSurchargeApplicable p s = s.isCustomSize) ∧
    (p.type = StrategyType.custom →
      (isSurchargeApplicable p s = true ↔
        s.wristSize ≠ "" ∧ ∃ q, jsNumber s.wristSize = some q ∧ p.sizeThreshold ≤ q)) := by
  constructor
  · intro h
    simp [isSurchargeApplicable, h]
  · intro h
    have hns : p.type ≠ StrategyType.standard := by
      rw [h]
      intro hc
      cases hc
    simp only [isSurchargeApplicable, if_neg hns]
    cases hq : jsNumber s.wristSize with
    | none => simp [hq]
    | some q => simp [hq, and_comm]

/-- Witness for C2 at concrete inputs: a standard policy follows the
toggle, and a custom policy with wrist size `"15"` and threshold `14`
applies the surcharge. -/
theorem surcharge_applicability_witness :
    (isSurchargeApplicable pStdExample sValid = sValid.isCustomSize) ∧
    (isSurchargeApplicable pCusExample sValid = true ↔
      sValid.wristSize ≠ "" ∧
        ∃ q, jsNumber sValid.wristSize = some q ∧ pCusExample.sizeThreshold ≤ q) :=
  ⟨(surcharge_applicability pStdExample sValid).1 rfl,
   (surcharge_applicability pCusExample sValid).2 rfl⟩

/-- C3: whenever submit finds at least one validation error, the single
field signalled for shake/scroll/focus is the earliest failing field in
the fixed canonical order (real name, phone, store code, store name,
social handle, wrist size, agreement), for every combination of failing
fields. -/
theorem submit_shakes_first_canonical_field (p : PricingStrategy) (s : FormState)
    (h : validationErrors s ≠ []) :
    ∃ f, (validateAndSubmit p s).shaken = some f ∧
      canonicalFields.find? (fun g => failsField g s) = some f := by
  have hne : (validationErrors s).isEmpty = false := by
    cases hv : validationErrors s with
    | nil => exact absurd hv h
    | cons a l => rfl
  obtain ⟨e, l, hv⟩ : ∃ e l, validationErrors s = e :: l := by
    cases hv : validationErrors s with
    | nil => exact absurd hv h
    | cons a l => exact ⟨a, l, rfl⟩
  refine ⟨e.1, ?_, ?_⟩
  · simp [validateAndSubmit, hne, hv]
  · have := validationErrors_head_eq_find s
    rw [hv] at this
    simpa using this.symm

/-- Witness for C3: on the all-empty form every field fails and the
real-name field is the one shaken. -/
theorem submit_shakes_first_canonical_field_witness :
    ∃ f, (validateAndSubmit pStdExample sEmpty).shaken = some f ∧
      canonicalFields.find? (fun g => failsField g sEmpty) = some f :=
  submit_shakes_first_canonical_field pStdExample sEmpty (by decide)

/-- C4: when every validation rule passes, submit clears the persisted
draft and calls `onSubmit` with a record whose total price is the
currently computed total, whose phone is the canonical dashed form of the
digit-only content, and which carries the applied coupon code and
discount amount (absent when no coupon is applied). -/
theorem submit_success_clears_draft_and_emits (p : PricingStrategy) (s : FormState)
    (h : validationErrors s = []) :
    (validateAndSubmit p s).draftCleared = true ∧
    ∃ d, (validateAndSubmit p s).submitted = some d ∧
      d.totalPrice = totalPrice p s ∧
      d.phone = formatDashedPhone (digitsOnly s.phone) ∧
      d.couponCode = s.appliedCoupon.map Coupon.code ∧
      d.discountAmount = s.appliedCoupon.map Coupon.amount := by
  have hphone : phoneRegexOk (digitsOnly s.phone) = true :=
    ((validationErrors_eq_nil_iff s).mp h).2.1
  have hempty : (validationErrors s).isEmpty = true := by
    rw [h]
    rfl
  refine ⟨?_, ?_⟩
  · simp [validateAndSubmit, hempty]
  · refine ⟨{ realName := jsTrim s.realName
              phone := formatDashedPhone (digitsOnly s.phone)
              storeCode := s.storeCode
              storeName := jsTrim s.storeName
              socialId := jsTrim s.socialId
              wristSize := s.wristSize
              addPurificationBag := s.addPurificationBag
              preferredColors := s.preferredColors
              couponCode := s.appliedCoupon.map Coupon.code
              discountAmount := s.appliedCoupon.map Coupon.amount
              totalPrice := totalPrice p s }, ?_, rfl, rfl, rfl, rfl⟩
    simp [validateAndSubmit, hempty, hphone]

/-- Witness for C4: the fully valid fixture submits with the dashed
phone, the computed total and no coupon. -/
theorem submit_success_witness :
    (validateAndSubmit pStdExample sValid).draftCleared = true ∧
    ∃ d, (validateAndSubmit pStdExample sValid).submitted = some d ∧
      d.totalPrice = totalPrice pStdExample sValid ∧
      d.phone = formatDashedPhone (digitsOnly sValid.phone) ∧
      d.couponCode = sValid.appliedCoupon.map Coupon.code ∧
      d.discountAmount = sValid.appliedCoupon.map Coupon.amount :=
  submit_success_clears_draft_and_emits pStdExample sValid (by decide)

/-- C5: when at least one validation rule fails, submit records the full
error mapping and aborts atomically: the persisted draft entry is kept
and `onSubmit` is never called. -/
theorem submit_failure_aborts (p : PricingStrategy) (s : FormState)
    (h : validationErrors s ≠ []) :
    (validateAndSubmit p s).errors = validationErrors s ∧
    (validateAndSubmit p s).draftCleared = false ∧
    (validateAndSubmit p s).submitted = none := by
  have hne : (validationErrors s).isEmpty = false := by
    cases hv : validationErrors s with
    | nil => exact absurd hv h
    | cons a l => rfl
  refine ⟨?_, ?_, ?_⟩ <;> simp [validateAndSubmit, hne]

/-- Witness for C5: the all-empty form keeps its draft and produces no
record. -/
theorem submit_failure_aborts_witness :
    (validateAndSubmit pStdExample sEmpty).errors = validationErrors sEmpty ∧
    (validateAndSubmit pStdExample sEmpty).draftCleared = false ∧
    (validateAndSubmit pStdExample sEmpty).submitted = none :=
  submit_failure_aborts pStdExample sEmpty (by decide)

/-- C8: for every non-blank coupon input, a globally disabled coupon
system yields the CouponsDisabled error with no coupon applied; an
enabled system applies the configured coupon and clears the error when
the trimmed input matches the configured code case-insensitively, and
sets the InvalidCoupon error when it does not. -/
theorem apply_coupon_nonblank (cfg : CouponConfig) (s : FormState)
    (h : jsTrim s.couponInput ≠ "") :
    (cfg.isEnabled = false →
      handleApplyCoupon cfg s = { s with couponError := "目前無進行中的優惠活動" }) ∧
    (cfg.isEnabled = true →
      jsToUpper (jsTrim s.couponInput) = jsToUpper cfg.code →
      handleApplyCoupon cfg s =
        { s with appliedCoupon := some { code := cfg.code, amount := cfg.discountAmount }
                 couponError := "" }) ∧
    (cfg.isEnabled = true →
      jsToUpper (jsTrim s.couponInput) ≠ jsToUpper cfg.code →
      handleApplyCoupon cfg s =
        { s with appliedCoupon := none, couponError := "優惠碼無效或已過期" }) := by
  refine ⟨?_, ?_, ?_⟩
  · intro hoff
    simp [handleApplyCoupon, h, hoff]
  · intro hon hmatch
    simp [handleApplyCoupon, h, hon, hmatch]
  · intro hon hmiss
    simp [handleApplyCoupon, h, hon, hmiss]

/-- Witness for C8: a disabled config rejects `"SAVE10"`, the enabled
config accepts the lower-case `"save10"`, and a wrong code sets the
invalid-coupon error. -/
theorem apply_coupon_nonblank_witness :
    (handleApplyCoupon cfgOff { sEmpty with couponInput := "SAVE10" } =
      { sEmpty with couponInput := "SAVE10", couponError := "目前無進行中的優惠活動" }) ∧
    (handleApplyCoupon cfgOn { sEmpty with couponInput := "save10" } =
      { sEmpty with couponInput := "save10"
                    appliedCoupon := some { code := "SAVE10", amount := 100 }
                    couponError := "" }) ∧
    (handleApplyCoupon cfgOn { sEmpty with couponInput := "WRONG" } =
      { sEmpty with couponInput := "WRONG", appliedCoupon := none
                    couponError := "優惠碼無效或已過期" }) :=
  ⟨(apply_coupon_nonblank cfgOff { sEmpty with couponInput := "SAVE10" }
      (by decide)).1 rfl,
   (apply_coupon_nonblank cfgOn { sEmpty with couponInput := "save10" }
      (by decide)).2.1 rfl (by decide),
   (apply_coupon_nonblank cfgOn { sEmpty with couponInput := "WRONG" }
      (by decide)).2.2 rfl (by decide)⟩

/-- C9: the persisted draft contains exactly the eight fields realName,
phone, storeCode, storeName, socialId, wristSize, addPurificationBag and
preferredColors; the agreement flag, the coupon input and the applied
coupon are never written, and every form restored from a draft starts
with the agreement unchecked and no coupon applied. -/
theorem draft_fields_exact_and_restore_defaults :
    (∀ s : FormState,
      saveDraft s = { realName := s.realName, phone := s.phone
                      storeCode := s.storeCode, storeName := s.storeName
                      socialId := s.socialId, wristSize := s.wristSize
                      addPurificationBag := s.addPurificationBag
                      preferredColors := s.preferredColors }) ∧
    (∀ (s : FormState) (b : Bool) (c : Option Coupon) (i e : String),
      saveDraft { s with agreed := b, appliedCoupon := c, couponInput := i
                         couponError := e } = saveDraft s) ∧
    (∀ (d : Draft) (p : PricingStrategy),
      (initFormState d p).agreed = false ∧
      (initFormState d p).appliedCoupon = none ∧
      (initFormState d p).couponInput = "") :=
  ⟨fun _ => rfl, fun _ _ _ _ _ => rfl, fun _ _ => ⟨rfl, rfl, rfl⟩⟩

/-- C10: applying a coupon with a blank (empty or whitespace-only) input
only clears the coupon error: no coupon is applied and no error is
reported — not even CouponsDisabled — because the blank-input check runs
before the enabled check. -/
theorem apply_coupon_blank_noop (cfg : CouponConfig) (s : FormState)
    (h : jsTrim s.couponInput = "") :
    handleApplyCoupon cfg s = { s with couponError := "" } := by
  simp [handleApplyCoupon, h]

/-- Witness for C10: a whitespace-only input with the coupon system
disabled still only clears the previous error. -/
theorem apply_coupon_blank_noop_witness :
    handleApplyCoupon cfgOff
        { sEmpty with couponInput := "   ", couponError := "優惠碼無效或已過期" } =
      { sEmpty with couponInput := "   ", couponError := "" } :=
  apply_coupon_blank_noop cfgOff
    { sEmpty with couponInput := "   ", couponError := "優惠碼無效或已過期" } (by decide)

/-- C6 counterexample: with a record carrying image data, a transmission
that throws a cross-origin-classified error leads to exactly one
transmission attempt in total — the claimed image-free retry never
happens, because `sendRequest` swallows the cross-origin rejection and
reports `cors_blocked` instead of throwing. -/
theorem sync_cors_retry_counterexample :
    ((syncToGoogleSheet exRecord "https://script.example" exCompression
        (Except.error corsErr) (Except.ok ())).toOption.map
          (fun l => (l.attempts.length, l.outcome))
      = some (1, SyncOutcome.synced corsBlockedResult)) ∧
    (buildPayload exRecord exCompression).imageBase64 = "QUJD" :=
  ⟨by decide, by decide⟩

/-- C6 amended: when the transmission throws an error identified as a
cross-origin policy rejection, `syncToGoogleSheet` still produces a
reported outcome (`cors_blocked`) and performs no retry; the single
retry with the imageBase64 field forced empty happens exactly when the
thrown error is not identified as cross-origin. -/
theorem sync_cors_reported_without_retry (record : CustomerRecord)
    (scriptUrl : String) (compression : Except JsError String)
    (t2 : Except JsError Unit) (e : JsError) (hurl : scriptUrl ≠ "") :
    (isCorsError e = true →
      syncToGoogleSheet record scriptUrl compression (Except.error e) t2 =
        Except.ok { attempts := [buildPayload record compression]
                    outcome := SyncOutcome.synced corsBlockedResult }) ∧
    (isCorsError e = false →
      ∃ log, syncToGoogleSheet record scriptUrl compression (Except.error e) t2 =
          Except.ok log ∧
        log.attempts = [buildPayload record compression,
          { buildPayload record compression with imageBase64 := "" }]) := by
  constructor
  · intro hcors
    simp [syncToGoogleSheet, sendRequest, hurl, hcors]
  · intro hnc
    have hs1 : sendRequest (Except.error e) = Except.error e := by
      simp [sendRequest, hnc]
    cases t2 with
    | ok u =>
        refine ⟨{ attempts := [buildPayload record compression,
                    { buildPayload record compression with imageBase64 := "" }]
                  outcome := SyncOutcome.retried sentResult }, ?_, rfl⟩
        simp [syncToGoogleSheet, sendRequest, hurl, hnc]
    | error e2 =>
        by_cases h2 : isCorsError e2 = true
        · refine ⟨{ attempts := [buildPayload record compression,
                      { buildPayload record compression with imageBase64 := "" }]
                    outcome := SyncOutcome.retried corsBlockedResult }, ?_, rfl⟩
          simp [syncToGoogleSheet, sendRequest, hurl, hnc, h2]
        · refine ⟨{ attempts := [buildPayload record compression,
                      { buildPayload record compression with imageBase64 := "" }]
                    outcome := SyncOutcome.manualCheckNeeded }, ?_, rfl⟩
          simp [syncToGoogleSheet, sendRequest, hurl, hnc, h2]

/-- Witness for the amended C6: a cross-origin throw yields a single
`cors_blocked` attempt, and a non-cross-origin throw yields the
image-free retry. -/
theorem sync_cors_reported_without_retry_witness :
    (syncToGoogleSheet exRecord "https://script.example" exCompression
        (Except.error corsErr) (Except.ok ()) =
      Except.ok { attempts := [buildPayload exRecord exCompression]
                  outcome := SyncOutcome.synced corsBlockedResult }) ∧
    (∃ log, syncToGoogleSheet exRecord "https://script.example" exCompression
          (Except.error plainErr) (Except.ok ()) = Except.ok log ∧
        log.attempts = [buildPayload exRecord exCompression,
          { buildPayload exRecord exCompression with imageBase64 := "" }]) :=
  ⟨(sync_cors_reported_without_retry exRecord "https://script.example" exCompression
      (Except.ok ()) corsErr (by decide)).1 (by decide),
   (sync_cors_reported_without_retry exRecord "https://script.example" exCompression
      (Except.ok ()) plainErr (by decide)).2 (by decide)⟩

/-- C7: `syncToGoogleSheet` never propagates an error to its caller: for
every record, script URL, compression outcome and pair of transmission
outcomes — including both transmissions throwing — it returns normally. -/
theorem sync_never_throws (record : CustomerRecord) (scriptUrl : String)
    (compression : Except JsError String) (t1 t2 : Except JsError Unit) :
    ∃ log, syncToGoogleSheet record scriptUrl compression t1 t2 = Except.ok log := by
  set payload := buildPayload record compression with hp
  by_cases hurl : scriptUrl = ""
  · exact ⟨{ attempts := [], outcome := SyncOutcome.skipped },
      by simp [syncToGoogleSheet, hurl]⟩
  · cases t1 with
    | ok u =>
        exact ⟨{ attempts := [payload], outcome := SyncOutcome.synced sentResult },
          by simp [syncToGoogleSheet, sendRequest, hurl, hp]⟩
    | error e1 =>
        by_cases h1 : isCorsError e1 = true
        · exact ⟨{ attempts := [payload], outcome := SyncOutcome.synced corsBlockedResult },
            by simp [syncToGoogleSheet, sendRequest, hurl, h1, hp]⟩
        · have hs1 : sendRequest (Except.error e1) = Except.error e1 := by
            simp [sendRequest, h1]
          cases t2 with
          | ok u =>
              exact ⟨{ attempts := [payload, { payload with imageBase64 := "" }]
                       outcome := SyncOutcome.retried sentResult },
                by simp [syncToGoogleSheet, sendRequest, hurl, h1]⟩
          | error e2 =>
              by_cases h2 : isCorsError e2 = true
              · exact ⟨{ attempts := [payload, { payload with imageBase64 := "" }]
                         outcome := SyncOutcome.retried corsBlockedResult },
                  by simp [syncToGoogleSheet, sendRequest, hurl, h1, h2]⟩
              · exact ⟨{ attempts := [payload, { payload with imageBase64 := "" }]
                         outcome := SyncOutcome.manualCheckNeeded },
                  by simp [syncToGoogleSheet, sendRequest, hurl, h1, h2]⟩

end FWP
